import Mathlib

/-
Verification of the timing quantization and parameter-application engine of
the CCDDrone Leach-controller code (LeachControllerTimingProcedures.cpp).

The embedding models:
  - CalculateTiming      (the quantizer: microseconds -> hardware clock code),
  - ApplyGainAndSpeed, ApplyNewIntegralTimeAndGain, and the six further
    parameter applicators (pedestal wait, signal wait, DG / OG / RG / SW
    widths),
with the external ARC command transport modelled as an arbitrary function
from requests to 32-bit replies, and the controller-wide CCDParams.ItgSpeed
field as explicit state.

C doubles are modelled as rationals with exact arithmetic; the C cast
(int) x truncates toward zero, which on a rational num/den is num tdiv den.
C integer division and remainder (truncated toward zero) are Int.tdiv and
Int.tmod.
-/

namespace CCDDrone

/-- Opcodes of the timing-board commands used in this file.
Modelled from the spec: the module id and opcodes are fixed symbolic
constants supplied by the external ARC API header (ArcDefs.h, not part of
src/); only their identity is relevant here.  All requests in this file
target the timing board TIM_ID, so the board id is left implicit. -/
inductive Opcode where
  | SGN  -- set gain and integrator speed
  | CIT  -- set integration time
  | CPR  -- set pedestal settling wait
  | CPO  -- set signal settling wait
  | DGW  -- set dump-gate width
  | OGW  -- set output-gate width
  | RSW  -- set (skipping) reset-gate width
  | SWW  -- set summing-well width
  deriving DecidableEq

/-- A request handed to the ARC command transport:
pArcDev->Command(TIM_ID, opcode, arg) or Command(TIM_ID, opcode, arg1, arg2). -/
inductive Request where
  | command1 : Opcode → ℤ → Request
  | command2 : Opcode → ℤ → ℤ → Request
  deriving DecidableEq

/-- The external command transport: each request receives a 32-bit integer
reply synchronously. -/
def Transport : Type := Request → ℤ

/-- The "done/acknowledged" reply sentinel DON.
Modelled from the spec: a fixed 32-bit done value shared across all these
opcodes; its numeric value is fixed by the literal 0x00444F4E that the
source itself compares against in ApplyNewIntegralTimeAndGain (line 113)
and ApplyGainAndSpeed (line 140). -/
def DON : ℤ := 0x00444F4E

/-- The controller-wide state this file touches: the CCDParams.ItgSpeed
field (integrator speed, 0 = slow, 1 = fast). -/
structure CCDVariables where
  ItgSpeed : ℤ
  deriving DecidableEq

/-- The C cast (int) x: truncation toward zero.  On a rational num/den
(den positive) this is num tdiv den. -/
def truncQ (q : ℚ) : ℤ := Int.tdiv q.num q.den

/-- Integer part of CalculateTiming, operating on the already truncated
nanosecond count iTime_ns (source lines 52-79):
if iTime_ns > 4000 the coarse code (iTime_ns/320) | 0x80 is used; otherwise
the folded remainders modulo 320 and 40 are compared and the coarse code is
used when bigreminder <= littlereminder, else the fine code iTime_ns/40;
the chosen byte is shifted left by 16. -/
def timingFromNs (iTime_ns : ℤ) : ℤ :=
  let timing_dsp : ℤ :=
    if iTime_ns > 4000 then
      Int.lor (Int.tdiv iTime_ns 320) 0x80
    else
      let bigreminder : ℤ :=
        if Int.tmod iTime_ns 320 > 160 then 320 - Int.tmod iTime_ns 320
        else Int.tmod iTime_ns 320
      let littlereminder : ℤ :=
        if Int.tmod iTime_ns 40 > 20 then 40 - Int.tmod iTime_ns 40
        else Int.tmod iTime_ns 40
      if bigreminder ≤ littlereminder then
        Int.lor (Int.tdiv iTime_ns 320) 0x80
      else
        Int.tdiv iTime_ns 40
  timing_dsp <<< (16 : ℤ)

/-- LeachController::CalculateTiming (source lines 38-81): clamp the
microsecond input to 163, convert to nanoseconds by multiplying by 1000 and
truncating toward zero, then encode as in timingFromNs. -/
def CalculateTiming (time_in_us : ℚ) : ℤ :=
  let clamped : ℚ := if time_in_us > 163 then 163 else time_in_us
  let fiTime_ns : ℚ := clamped * 1000
  let iTime_ns : ℤ := truncQ fiTime_ns
  timingFromNs iTime_ns

/-- LeachController::ApplyGainAndSpeed (source lines 132-146): sends
Command(TIM_ID, SGN, gain, speed) and returns 0 when the reply equals
0x00444F4E, -1 otherwise.  The list records the requests issued. -/
def ApplyGainAndSpeed (transport : Transport) (gain speed : ℤ) :
    ℤ × List Request :=
  let req := Request.command2 Opcode.SGN gain speed
  let dReply := transport req
  (if dReply = 0x00444F4E then 0 else -1, [req])

/-- LeachController::ApplyNewIntegralTimeAndGain (source lines 98-120):
computes the timing code, sets CCDParams.ItgSpeed to 1 when
integralTime < 4.5 and 0 otherwise, calls ApplyGainAndSpeed (whose return
value the source discards), then sends Command(TIM_ID, CIT, timing_dsp) and
returns 0 when that reply equals 0x00444F4E, -1 otherwise.
Result: (return value, updated state, requests issued in order). -/
def ApplyNewIntegralTimeAndGain (transport : Transport) (st : CCDVariables)
    (integralTime : ℚ) (gain : ℤ) : ℤ × CCDVariables × List Request :=
  let timing_dsp := CalculateTiming integralTime
  let st' : CCDVariables :=
    if integralTime < 4.5 then { st with ItgSpeed := 1 }
    else { st with ItgSpeed := 0 }
  let gs := ApplyGainAndSpeed transport gain st'.ItgSpeed
  let req := Request.command1 Opcode.CIT timing_dsp
  let dReply := transport req
  (if dReply = 0x00444F4E then 0 else -1, st', gs.2 ++ [req])

/-- LeachController::ApplyNewPedestalIntegralWait (source lines 158-171). -/
def ApplyNewPedestalIntegralWait (transport : Transport)
    (pedestalWaitTime : ℚ) : ℤ × List Request :=
  let timing_dsp := CalculateTiming pedestalWaitTime
  let req := Request.command1 Opcode.CPR timing_dsp
  let dReply := transport req
  (if dReply = DON then 0 else -1, [req])

/-- LeachController::ApplyNewSignalIntegralWait (source lines 181-194). -/
def ApplyNewSignalIntegralWait (transport : Transport)
    (signalWaitTime : ℚ) : ℤ × List Request :=
  let timing_dsp := CalculateTiming signalWaitTime
  let req := Request.command1 Opcode.CPO timing_dsp
  let dReply := transport req
  (if dReply = DON then 0 else -1, [req])

/-- LeachController::ApplyDGWidth (source lines 202-215). -/
def ApplyDGWidth (transport : Transport) (newDGWidth : ℚ) :
    ℤ × List Request :=
  let timing_dsp := CalculateTiming newDGWidth
  let req := Request.command1 Opcode.DGW timing_dsp
  let dReply := transport req
  (if dReply = DON then 0 else -1, [req])

/-- LeachController::ApplyOGWidth (source lines 222-235). -/
def ApplyOGWidth (transport : Transport) (newOGWidth : ℚ) :
    ℤ × List Request :=
  let timing_dsp := CalculateTiming newOGWidth
  let req := Request.command1 Opcode.OGW timing_dsp
  let dReply := transport req
  (if dReply = DON then 0 else -1, [req])

/-- LeachController::ApplySkippingRGWidth (source lines 242-255). -/
def ApplySkippingRGWidth (transport : Transport) (newRGWidth : ℚ) :
    ℤ × List Request :=
  let timing_dsp := CalculateTiming newRGWidth
  let req := Request.command1 Opcode.RSW timing_dsp
  let dReply := transport req
  (if dReply = DON then 0 else -1, [req])

/-- LeachController::ApplySummingWellWidth (source lines 263-276). -/
def ApplySummingWellWidth (transport : Transport) (newSWWidth : ℚ) :
    ℤ × List Request :=
  let timing_dsp := CalculateTiming newSWWidth
  let req := Request.command1 Opcode.SWW timing_dsp
  let dReply := transport req
  (if dReply = DON then 0 else -1, [req])

/-! Helper lemmas. -/

theorem calcTiming_of_not_gt (d : ℚ) (h : ¬ d > 163) :
    CalculateTiming d = timingFromNs (truncQ (d * 1000)) := by
  simp only [CalculateTiming, if_neg h]

theorem calcTiming_of_gt (d : ℚ) (h : d > 163) :
    CalculateTiming d = timingFromNs (truncQ ((163 : ℚ) * 1000)) := by
  simp only [CalculateTiming, if_pos h]

theorem truncQ_intCast (n : ℤ) : truncQ (n : ℚ) = n := by
  simp [truncQ, Rat.num_intCast, Rat.den_intCast]

theorem truncQ_eq_of_eq_intCast {q : ℚ} {n : ℤ} (h : q = (n : ℚ)) :
    truncQ q = n := by
  rw [h, truncQ_intCast]

theorem calcTiming_ten : CalculateTiming 10 = 0x9F0000 := by
  have h1 : ¬ (10 : ℚ) > 163 := by norm_num
  have h2 : truncQ ((10 : ℚ) * 1000) = 10000 :=
    truncQ_eq_of_eq_intCast (by norm_num)
  rw [calcTiming_of_not_gt _ h1, h2]
  decide

theorem trunc_ten_thousand : truncQ ((10 : ℚ) * 1000) = 10000 :=
  truncQ_eq_of_eq_intCast (by norm_num)

theorem truncQ_eq_floor (q : ℚ) (h : 0 ≤ q) : truncQ q = ⌊q⌋ := by
  rw [truncQ, Int.tdiv_eq_ediv (Rat.num_nonneg.mpr h) (Int.ofNat_nonneg q.den),
    Rat.floor_def]

theorem itgSpeed_eq (tr : Transport) (st : CCDVariables) (t : ℚ) (g : ℤ) :
    ((ApplyNewIntegralTimeAndGain tr st t g).2.1).ItgSpeed
      = if t < 4.5 then 1 else 0 := by
  by_cases h : t < 4.5 <;> simp [ApplyNewIntegralTimeAndGain, h]

theorem requests_eq (tr : Transport) (st : CCDVariables) (t : ℚ) (g : ℤ) :
    (ApplyNewIntegralTimeAndGain tr st t g).2.2
      = [Request.command2 Opcode.SGN g (if t < 4.5 then (1 : ℤ) else 0),
         Request.command1 Opcode.CIT (CalculateTiming t)] := by
  by_cases h : t < 4.5 <;>
    simp [ApplyNewIntegralTimeAndGain, ApplyGainAndSpeed, h]

theorem result_eq (tr : Transport) (st : CCDVariables) (t : ℚ) (g : ℤ) :
    (ApplyNewIntegralTimeAndGain tr st t g).1
      = if tr (Request.command1 Opcode.CIT (CalculateTiming t)) = DON
        then 0 else -1 := by
  simp only [ApplyNewIntegralTimeAndGain, DON]

/-! Claim theorems. -/

/-- Transport that rejects the gain/speed request with reply 0xDEAD and
acknowledges every other request with the sentinel. -/
def gainFailTransport : Transport := fun r =>
  match r with
  | Request.command2 Opcode.SGN _ _ => 0xDEAD
  | _ => DON

/-- C1: the claim states that when ApplyGainAndSpeed fails, the overall
ApplyNewIntegralTimeAndGain propagates that Failure and issues exactly one
transport request.  The code instead discards the return value of
ApplyGainAndSpeed: with a transport that rejects the gain/speed request
(reply 0xDEAD, not the sentinel) and acknowledges everything else, the call
ApplyNewIntegralTimeAndGain(10.0, 5) still issues the integration-time
request (two transport requests in total) and returns 0 (success). -/
theorem applyIntegralTime_no_short_circuit :
    (ApplyNewIntegralTimeAndGain gainFailTransport ⟨0⟩ 10 5).1 = 0 ∧
    (ApplyNewIntegralTimeAndGain gainFailTransport ⟨0⟩ 10 5).2.2 =
      [Request.command2 Opcode.SGN 5 0,
       Request.command1 Opcode.CIT 0x9F0000] ∧
    gainFailTransport (Request.command2 Opcode.SGN 5 0) = 0xDEAD ∧
    (0xDEAD : ℤ) ≠ DON := by
  have h45 : ¬ (10 : ℚ) < 4.5 := by norm_num
  refine ⟨?_, ?_, rfl, by decide⟩
  · rw [result_eq]
    simp [gainFailTransport]
  · rw [requests_eq, calcTiming_ten, if_neg h45]

/-- C2: the claim states that for every duration in [0,163] µs the
step-count value computed before the regime flag is OR-ed in lies in
[0,127].  At the clamp boundary 163 µs the code computes
163000 / 320 = 509 > 127, which already contains the regime-flag bit
(Int.lor 509 0x80 = 509) and spills into bit 8, so the final code is
0x1FD0000 rather than a clean byte in bits 23-16. -/
theorem calcTiming_stepcount_overflow :
    truncQ ((163 : ℚ) * 1000) = 163000 ∧
    Int.tdiv 163000 320 = 509 ∧
    ¬ ((509 : ℤ) ≤ 127) ∧
    Int.lor 509 0x80 = 509 ∧
    CalculateTiming 163 = 0x1FD0000 := by
  have h1 : ¬ (163 : ℚ) > 163 := by norm_num
  have h2 : truncQ ((163 : ℚ) * 1000) = 163000 :=
    truncQ_eq_of_eq_intCast (by norm_num)
  refine ⟨h2, by decide, by decide, by decide, ?_⟩
  rw [calcTiming_of_not_gt _ h1, h2]
  decide

/-- C3 counterexample: the claim states quantize(4.0) selects the coarse
regime with final code 0x8C0000; the code disagrees. -/
theorem calcTiming_four_ne_coarse : CalculateTiming 4 ≠ 0x8C0000 := by
  have h1 : ¬ (4 : ℚ) > 163 := by norm_num
  have h2 : truncQ ((4 : ℚ) * 1000) = 4000 :=
    truncQ_eq_of_eq_intCast (by norm_num)
  rw [calcTiming_of_not_gt _ h1, h2]
  decide

/-- C3 amended: quantize(4.0) (4000 ns) falls into the remainder-comparison
branch, where the folded coarse remainder is 4000 mod 320 = 160 (not 0)
and the fine remainder is 0; since 160 ≤ 0 fails, the fine regime is
selected with step 4000 / 40 = 100, timing byte 0x64, final code
0x640000. -/
theorem calcTiming_four_fine :
    Int.tmod 4000 320 = 160 ∧
    Int.tmod 4000 40 = 0 ∧
    ¬ ((160 : ℤ) ≤ 0) ∧
    Int.tdiv 4000 40 = 100 ∧
    CalculateTiming 4 = 0x640000 := by
  have h1 : ¬ (4 : ℚ) > 163 := by norm_num
  have h2 : truncQ ((4 : ℚ) * 1000) = 4000 :=
    truncQ_eq_of_eq_intCast (by norm_num)
  refine ⟨by decide, by decide, by decide, by decide, ?_⟩
  rw [calcTiming_of_not_gt _ h1, h2]
  decide

/-- C4 counterexample: the claim states that in the coarse regime the final
Clock Code is the timing byte placed in bits 23-16 with all other bits
zero; at 100 µs the truncated value 100000 ns is in the coarse regime but
the code 0x1B80000 reaches bit 24. -/
theorem calcTiming_coarse_overflow_bits :
    truncQ ((100 : ℚ) * 1000) = 100000 ∧
    ((100000 : ℤ) > 4000) ∧
    CalculateTiming 100 = 0x1B80000 ∧
    ¬ ((0x1B80000 : ℤ) < 0x1000000) := by
  have h1 : ¬ (100 : ℚ) > 163 := by norm_num
  have h2 : truncQ ((100 : ℚ) * 1000) = 100000 :=
    truncQ_eq_of_eq_intCast (by norm_num)
  refine ⟨h2, by decide, ?_, by decide⟩
  rw [calcTiming_of_not_gt _ h1, h2]
  decide

/-- C4 amended: for every unclamped duration whose truncated nanosecond
value exceeds 4000, the code uses the coarse regime with final value
(ns / 320 | 0x80) shifted left by 16 (bits 15-0 zero; the byte stays within
bits 23-16 only while ns / 320 ≤ 127); in particular quantize(10.0) has
step floor(10000/320) = 31, byte 0x9F, code 0x9F0000. -/
theorem calcTiming_coarse_formula (d : ℚ) (hd : ¬ d > 163)
    (h : truncQ (d * 1000) > 4000) :
    CalculateTiming d
      = (Int.lor (Int.tdiv (truncQ (d * 1000)) 320) 0x80) <<< (16 : ℤ) ∧
    CalculateTiming 10 = 0x9F0000 := by
  constructor
  · rw [calcTiming_of_not_gt _ hd]
    simp only [timingFromNs]
    rw [if_pos h]
  · exact calcTiming_ten

/-- Witness for calcTiming_coarse_formula at duration 10 µs. -/
theorem calcTiming_coarse_formula_witness :
    (¬ (10 : ℚ) > 163) ∧ truncQ ((10 : ℚ) * 1000) > 4000 ∧
    (CalculateTiming 10
        = (Int.lor (Int.tdiv (truncQ ((10 : ℚ) * 1000)) 320) 0x80)
            <<< (16 : ℤ) ∧
     CalculateTiming 10 = 0x9F0000) := by
  have h1 : ¬ (10 : ℚ) > 163 := by decide
  have h2 : truncQ ((10 : ℚ) * 1000) > 4000 := by
    rw [trunc_ten_thousand]
    decide
  exact ⟨h1, h2, calcTiming_coarse_formula 10 h1 h2⟩

/-- C5: the truncated nanosecond value determines the result: any two
durations in [0,163] µs with equal truncations of d * 1000 toward zero
produce the same timing code. -/
theorem calcTiming_trunc_congr (d1 d2 : ℚ) (ha1 : 0 ≤ d1) (hb1 : d1 ≤ 163)
    (ha2 : 0 ≤ d2) (hb2 : d2 ≤ 163)
    (h : truncQ (d1 * 1000) = truncQ (d2 * 1000)) :
    CalculateTiming d1 = CalculateTiming d2 := by
  rw [calcTiming_of_not_gt _ (not_lt.mpr hb1),
    calcTiming_of_not_gt _ (not_lt.mpr hb2), h]

/-- Witness for calcTiming_trunc_congr: 0.5 µs and 0.5001 µs truncate to
the same nanosecond count 500 and give the same code. -/
theorem calcTiming_trunc_congr_witness :
    truncQ ((1 / 2 : ℚ) * 1000) = truncQ ((5001 / 10000 : ℚ) * 1000) ∧
    CalculateTiming (1 / 2) = CalculateTiming (5001 / 10000) := by
  have h : truncQ ((1 / 2 : ℚ) * 1000) = truncQ ((5001 / 10000 : ℚ) * 1000) := by
    norm_num [truncQ] <;> decide
  exact ⟨h, calcTiming_trunc_congr (1 / 2) (5001 / 10000) (by norm_num)
    (by norm_num) (by norm_num) (by norm_num) h⟩

/-- C6: any input above 163 µs is silently clamped to 163 µs: the result
always equals the result at 163, and a value is always produced. -/
theorem calcTiming_clamp (d : ℚ) (h : d > 163) :
    CalculateTiming d = CalculateTiming 163 := by
  rw [calcTiming_of_gt _ h, calcTiming_of_not_gt 163 (by norm_num)]

/-- Witness for calcTiming_clamp at 164 µs. -/
theorem calcTiming_clamp_witness :
    (164 : ℚ) > 163 ∧ CalculateTiming 164 = CalculateTiming 163 :=
  ⟨by decide, calcTiming_clamp 164 (by decide)⟩

/-- C7: the integrator speed stored by ApplyNewIntegralTimeAndGain is fast
(1) precisely when the requested integration time is strictly below 4.5 µs
and slow (0) otherwise; in particular 4.4 µs selects fast and 4.5 µs
selects slow. -/
theorem integrator_speed_selection (tr : Transport) (st : CCDVariables)
    (g : ℤ) :
    (∀ t : ℚ, ((ApplyNewIntegralTimeAndGain tr st t g).2.1).ItgSpeed
        = if t < 4.5 then 1 else 0) ∧
    ((ApplyNewIntegralTimeAndGain tr st (4.4 : ℚ) g).2.1).ItgSpeed = 1 ∧
    ((ApplyNewIntegralTimeAndGain tr st (4.5 : ℚ) g).2.1).ItgSpeed = 0 := by
  refine ⟨fun t => itgSpeed_eq tr st t g, ?_, ?_⟩
  · rw [itgSpeed_eq]
    norm_num
  · rw [itgSpeed_eq]
    norm_num

/-- C8: each of the seven parameter applicators returns 0 exactly when the
transport reply to its single timing-board command equals the DON sentinel
and -1 otherwise; every outcome is one of these two values (the embedding
is a total function, so no exception escapes). -/
theorem applicators_outcome (tr : Transport) (st : CCDVariables) (t : ℚ)
    (g : ℤ) :
    ((ApplyNewIntegralTimeAndGain tr st t g).1
        = if tr (Request.command1 Opcode.CIT (CalculateTiming t)) = DON
          then 0 else -1) ∧
    ((ApplyNewPedestalIntegralWait tr t).1
        = if tr (Request.command1 Opcode.CPR (CalculateTiming t)) = DON
          then 0 else -1) ∧
    ((ApplyNewSignalIntegralWait tr t).1
        = if tr (Request.command1 Opcode.CPO (CalculateTiming t)) = DON
          then 0 else -1) ∧
    ((ApplyDGWidth tr t).1
        = if tr (Request.command1 Opcode.DGW (CalculateTiming t)) = DON
          then 0 else -1) ∧
    ((ApplyOGWidth tr t).1
        = if tr (Request.command1 Opcode.OGW (CalculateTiming t)) = DON
          then 0 else -1) ∧
    ((ApplySkippingRGWidth tr t).1
        = if tr (Request.command1 Opcode.RSW (CalculateTiming t)) = DON
          then 0 else -1) ∧
    ((ApplySummingWellWidth tr t).1
        = if tr (Request.command1 Opcode.SWW (CalculateTiming t)) = DON
          then 0 else -1) :=
  ⟨result_eq tr st t g, rfl, rfl, rfl, rfl, rfl, rfl⟩

/-- C9: after every call of ApplyNewIntegralTimeAndGain, whatever the
transport replies, the stored integrator speed equals 1 when the requested
time is below 4.5 µs and 0 otherwise, and the gain/speed request carrying
that speed is issued before the integration-time request. -/
theorem applyIntegralTime_speed_invariant (tr : Transport)
    (st : CCDVariables) (t : ℚ) (g : ℤ) :
    ((ApplyNewIntegralTimeAndGain tr st t g).2.1).ItgSpeed
        = (if t < 4.5 then 1 else 0) ∧
    (ApplyNewIntegralTimeAndGain tr st t g).2.2
        = [Request.command2 Opcode.SGN g
             ((ApplyNewIntegralTimeAndGain tr st t g).2.1).ItgSpeed,
           Request.command1 Opcode.CIT (CalculateTiming t)] :=
  ⟨itgSpeed_eq tr st t g, by rw [requests_eq, itgSpeed_eq]⟩

/-- C10: every non-negative duration whose nanosecond value truncates to 0
yields the code 0x800000: both folded remainders are 0, the tie favors the
coarse regime, the step count is 0 and only the regime-flag bit remains. -/
theorem calcTiming_zero_ns (d : ℚ) (h0 : 0 ≤ d)
    (h : truncQ (d * 1000) = 0) : CalculateTiming d = 0x800000 := by
  have hq : (0 : ℚ) ≤ d * 1000 := by positivity
  have hle : d ≤ 163 := by
    by_contra hgt
    push_neg at hgt
    have h163 : (163000 : ℚ) ≤ d * 1000 := by nlinarith
    have hfl : (163000 : ℤ) ≤ ⌊d * 1000⌋ := Int.le_floor.mpr (by
      push_cast
      exact h163)
    rw [truncQ_eq_floor _ hq] at h
    omega
  rw [calcTiming_of_not_gt _ (not_lt.mpr hle), h]
  decide

/-- Witness for calcTiming_zero_ns at duration 0. -/
theorem calcTiming_zero_ns_witness :
    (0 : ℚ) ≤ 0 ∧ truncQ ((0 : ℚ) * 1000) = 0 ∧
    CalculateTiming 0 = 0x800000 := by
  have h : truncQ ((0 : ℚ) * 1000) = 0 := truncQ_eq_of_eq_intCast (by norm_num)
  exact ⟨by decide, h, calcTiming_zero_ns 0 (by decide) h⟩

end CCDDrone
